import Mathlib

/-!
Verification of the Elastic Tree protocol message codecs
(`src/backend/protocol/ElasticTreeMessage.py`).

The wire is modelled as a `List ℕ` of bytes (each value < 256 where
produced).  Python integers are modelled as `ℕ`/`ℤ` and Python floats as
exact rationals `ℚ`.  `struct.pack` range failures and `struct.unpack`
truncation failures are modelled by `Option`: `none` is a raised
`struct.error`.  A constructor that can `raise` is likewise modelled as a
function into `Option`.
-/

/-- Big-endian byte encoding of a natural number into `w` bytes
(the low `w` bytes of the value, as `struct.pack` would produce for an
in-range value). -/
def beBytes : ℕ → ℕ → List ℕ
  | 0, _ => []
  | w + 1, v => beBytes w (v / 256) ++ [v % 256]

/-- Big-endian value of a byte string (`struct.unpack` of an unsigned
big-endian field). -/
def beVal (bs : List ℕ) : ℕ :=
  bs.foldl (fun acc b => acc * 256 + b) 0

/-- Reading `w` bytes off the front of a buffer; fails (as `struct.unpack`
on a too-short slice fails) when fewer than `w` bytes remain. -/
def readU (w : ℕ) (bs : List ℕ) : Option (ℕ × List ℕ) :=
  if w ≤ bs.length then some (beVal (bs.take w), bs.drop w) else none

/-- `struct.pack` of an unsigned big-endian `w`-byte field: fails when the
value is out of range. -/
def packU (w : ℕ) (v : ℕ) : Option (List ℕ) :=
  if v < 256 ^ w then some (beBytes w v) else none

theorem length_beBytes (w v : ℕ) : (beBytes w v).length = w := by
  induction w generalizing v with
  | zero => rfl
  | succ w ih => simp [beBytes, ih]

theorem beVal_append_singleton (bs : List ℕ) (b : ℕ) :
    beVal (bs ++ [b]) = beVal bs * 256 + b := by
  simp [beVal, List.foldl_append]

theorem beVal_beBytes (w v : ℕ) : beVal (beBytes w v) = v % 256 ^ w := by
  induction w generalizing v with
  | zero => simp [beBytes, beVal, Nat.mod_one]
  | succ w ih =>
      rw [beBytes, beVal_append_singleton, ih]
      rw [← Nat.mod_mul_right_div_self]
      have hdvd : (256 : ℕ) ∣ 256 * 256 ^ w := Dvd.intro _ rfl
      have hmod : v % 256 = v % (256 * 256 ^ w) % 256 :=
        (Nat.mod_mod_of_dvd v hdvd).symm
      rw [hmod, pow_succ]
      have := Nat.div_add_mod (v % (256 * 256 ^ w)) 256
      ring_nf
      ring_nf at this
      omega

theorem readU_eq_none {w : ℕ} {bs : List ℕ} (h : bs.length < w) :
    readU w bs = none := by
  simp [readU]; omega

theorem readU_eq_some {w : ℕ} {bs : List ℕ} (h : w ≤ bs.length) :
    readU w bs = some (beVal (bs.take w), bs.drop w) := by
  simp [readU, h]

theorem readU_append {w : ℕ} {xs ys : List ℕ} (h : xs.length = w) :
    readU w (xs ++ ys) = some (beVal xs, ys) := by
  subst h
  rw [readU_eq_some (by simp)]
  rw [List.take_left, List.drop_left]

theorem packU_eq_some {w v : ℕ} (h : v < 256 ^ w) :
    packU w v = some (beBytes w v) := by
  simp [packU, h]

theorem beVal_beBytes_of_lt {w v : ℕ} (h : v < 256 ^ w) :
    beVal (beBytes w v) = v := by
  rw [beVal_beBytes, Nat.mod_eq_of_lt h]

/-- Modelled from the spec: the base envelope layer (`OFGMessage` from the
base module, not under `src/`).  §4.1: the header is 7 bytes — `length:u16`
and `type:u8` owned by the transport framing, plus `xid:u32` owned by the
payload codec.  `OFGMessage.SIZE` counts all 7 bytes. -/
def OFGMessage.SIZE : ℕ := 7

/-- Modelled from the spec: `OFGMessage.pack` encodes only the payload-side
part of the envelope, the big-endian `u32` transaction id (§4.1:
`encode(xid) -> bytes`); the 3-byte length/type part is written by the
transport framing. -/
def OFGMessage.pack (xid : ℕ) : Option (List ℕ) :=
  packU 4 xid

/-- Modelled from the spec: a base-layer topology node (§3 "Topology
Node"), an opaque fixed-size record: a `u16` node type and a `u64`
identifier (10 bytes). -/
structure Node where
  node_type : ℕ
  id : ℕ
deriving DecidableEq, Repr

def Node.SIZE : ℕ := 10

/-- Modelled from the spec: base-layer node codec, big-endian `u16` type
followed by `u64` id. -/
def Node.pack (n : Node) : Option (List ℕ) := do
  let tb ← packU 2 n.node_type
  let ib ← packU 8 n.id
  return tb ++ ib

/-- Modelled from the spec: base-layer node decode; fails on truncated
input. -/
def Node.unpack (buf : List ℕ) : Option Node := do
  let (node_type, buf) ← readU 2 buf
  let (id, _) ← readU 8 buf
  return ⟨node_type, id⟩

/-- Modelled from the spec: a base-layer point-to-point link (§3 "Topology
Link"), an opaque fixed-size record.  Its layout is pinned by
`ETLinkUtil.unpack` in the source: `link_type:u16`, source node, source
port `u16`, destination node, destination port `u16` (26 bytes). -/
structure Link where
  link_type : ℕ
  src_node : Node
  src_port : ℕ
  dst_node : Node
  dst_port : ℕ
deriving DecidableEq, Repr

def Link.SIZE : ℕ := 26

/-- Modelled from the spec: base-layer link codec (encode side). -/
def Link.pack (l : Link) : Option (List ℕ) := do
  let tb ← packU 2 l.link_type
  let sn ← Node.pack l.src_node
  let sp ← packU 2 l.src_port
  let dn ← Node.pack l.dst_node
  let dp ← packU 2 l.dst_port
  return tb ++ sn ++ sp ++ dn ++ dp

/-- Modelled from the spec: base-layer link decode, mirroring the slicing
sequence spelled out in `ETLinkUtil.unpack` in the source; reads 26 bytes
off the front of the buffer, ignoring any excess, and fails on truncated
input. -/
def Link.unpack (buf : List ℕ) : Option Link := do
  let (link_type, buf) ← readU 2 buf
  let src_node ← Node.unpack (buf.take Node.SIZE)
  let buf := buf.drop Node.SIZE
  let (src_port, buf) ← readU 2 buf
  let dst_node ← Node.unpack (buf.take Node.SIZE)
  let buf := buf.drop Node.SIZE
  let (dst_port, _) ← readU 2 buf
  return ⟨link_type, src_node, src_port, dst_node, dst_port⟩

/-- Modelled from the spec: the source packs the `util` field with
`struct.pack('> f', ...)`, a big-endian IEEE-754 binary32 value (§6:
"big-endian throughout").  The bit-level float layout is abstracted as an
opaque 4-byte-wide codec: no theorem below depends on the byte values of a
float field, only on the 4-byte width. -/
def packF32 (q : ℚ) : List ℕ :=
  [if q < 0 then 1 else 0, q.num.natAbs % 256, q.num.natAbs / 256 % 256, q.den % 256]

theorem length_packF32 (q : ℚ) : (packF32 q).length = 4 := by
  simp [packF32]

/-- Modelled from the spec: reading a 4-byte float field off the front of a
buffer; fails on truncated input like every fixed-width read.  The value
reconstruction is abstract (see `packF32`). -/
def readF32 (bs : List ℕ) : Option (ℚ × List ℕ) :=
  if 4 ≤ bs.length then some (((beVal (bs.take 4) : ℕ) : ℚ), bs.drop 4) else none

/-- `ETTrafficMatrix` (type code 0xF0).  Fields as stored by
`ETTrafficMatrix.__init__`; `use_hw` and `may_split_flows` hold the result
of Python's `bool(...)` coercion, `solver`/`k`/`plen` the result of
`int(...)`, and `demand`/`edge`/`agg` the result of `float(...)`, modelled
exactly as rationals. -/
structure ETTrafficMatrix where
  use_hw : Bool
  solver : ℤ
  may_split_flows : Bool
  k : ℤ
  demand : ℚ
  edge : ℚ
  agg : ℚ
  plen : ℤ
  xid : ℕ
deriving DecidableEq, Repr

/-- `ETTrafficMatrix.__init__`: stores the fields, then raises unless
`demand`, `edge` are in `[0,1]` and `agg ≥ 0` (the source checks
`self.edge>1.0` twice where the second occurrence was presumably meant to
be `self.agg>1.0`); then, if `agg + edge > 1.0`, raises when the excess is
beyond `1.01` and otherwise clamps `agg` to `1.0 - edge`.  A raise is
modelled as `none`. -/
def ETTrafficMatrix.init (use_hw : Bool) (solver : ℤ) (may_split_flows : Bool)
    (k : ℤ) (demand edge agg : ℚ) (plen : ℤ) (xid : ℕ) :
    Option ETTrafficMatrix :=
  if demand < 0 ∨ 1 < demand ∨ edge < 0 ∨ 1 < edge ∨ agg < 0 ∨ 1 < edge then
    none
  else if 1 < agg + edge then
    if 101 / 100 < agg + edge then
      none
    else
      some ⟨use_hw, solver, may_split_flows, k, demand, edge, 1 - edge, plen, xid⟩
  else
    some ⟨use_hw, solver, may_split_flows, k, demand, edge, agg, plen, xid⟩

/-- `ETLinkUtil`: a link together with its utilization (`Link` subclass in
the source, modelled as a link paired with the extra field). -/
structure ETLinkUtil where
  link : Link
  util : ℚ
deriving DecidableEq, Repr

def ETLinkUtil.SIZE : ℕ := Link.SIZE + 4

/-- `ETLinkUtil.pack`: the base link record followed by the f32
utilization. -/
def ETLinkUtil.pack (u : ETLinkUtil) : Option (List ℕ) := do
  let lb ← Link.pack u.link
  return lb ++ packF32 u.util

/-- An element of `ETLinkUtils.utils`.  The Python list is heterogeneous:
messages built by callers hold `ETLinkUtil` objects, while
`ETLinkUtils.unpack` fills the list with plain `Link` objects (it calls
`Link.unpack`, dropping the utilization). -/
inductive UtilItem where
  | link (l : Link)
  | linkUtil (u : ETLinkUtil)
deriving DecidableEq, Repr

/-- Packing one list element dispatches on the object's own `pack`, as
Python method dispatch does. -/
def UtilItem.pack : UtilItem → Option (List ℕ)
  | .link l => Link.pack l
  | .linkUtil u => ETLinkUtil.pack u

/-- `ETLinkUtils` (type code 0xF1). -/
structure ETLinkUtils where
  utils : List UtilItem
  xid : ℕ
deriving DecidableEq, Repr

/-- Python list repetition `lst * n`. -/
def pyListRepeat (l : List UtilItem) (n : ℕ) : List UtilItem :=
  (List.replicate n l).flatten

/-- Python `int + list`: always raises `TypeError` (modelled as `none`);
the two arguments are kept so the call site mirrors the source
expression. -/
def pyAddIntList (_ : ℕ) (_ : List UtilItem) : Option ℕ :=
  none

/-- `ETLinkUtils.length`: the source computes
`OFGMessage.SIZE + self.utils * ETLinkUtil.SIZE`, where `self.utils` is the
list of items, so the multiplication repeats the list and the addition of
an integer and a list raises `TypeError` on every call. -/
def ETLinkUtils.length (m : ETLinkUtils) : Option ℕ :=
  pyAddIntList OFGMessage.SIZE (pyListRepeat m.utils ETLinkUtil.SIZE)

/-- `ETLinkUtils.pack`: header then the concatenation of each item's own
`pack`. -/
def ETLinkUtils.pack (m : ETLinkUtils) : Option (List ℕ) := do
  let hdr ← OFGMessage.pack m.xid
  let parts ← m.utils.mapM UtilItem.pack
  return hdr ++ parts.flatten

/-- `ETPowerUsage` (type code 0xF2). -/
structure ETPowerUsage where
  watts_current : ℕ
  watts_traditional : ℕ
  watts_max : ℕ
  xid : ℕ
deriving DecidableEq, Repr

/-- `ETPowerUsage.__init__`: `watts_max` is optional (`None` by default)
and defaults to `watts_traditional`. -/
def ETPowerUsage.init (watts_current watts_traditional : ℕ)
    (watts_max : Option ℕ) (xid : ℕ) : ETPowerUsage :=
  ⟨watts_current, watts_traditional, watts_max.getD watts_traditional, xid⟩

/-- `ETPowerUsage.pack`: header then `'> 3I'`. -/
def ETPowerUsage.pack (m : ETPowerUsage) : Option (List ℕ) := do
  let hdr ← OFGMessage.pack m.xid
  let b1 ← packU 4 m.watts_current
  let b2 ← packU 4 m.watts_traditional
  let b3 ← packU 4 m.watts_max
  return hdr ++ b1 ++ b2 ++ b3

/-- `ETBandwidth` (type code 0xF4). -/
structure ETBandwidth where
  bandwidth_achieved_mbps : ℕ
  xid : ℕ
deriving DecidableEq, Repr

/-- `ETBandwidth.pack`: header then `'> I'`. -/
def ETBandwidth.pack (m : ETBandwidth) : Option (List ℕ) := do
  let hdr ← OFGMessage.pack m.xid
  let b ← packU 4 m.bandwidth_achieved_mbps
  return hdr ++ b

/-- `ETLatency` (type code 0xF5). -/
structure ETLatency where
  latency_ms_edge : ℕ
  latency_ms_agg : ℕ
  latency_ms_core : ℕ
  xid : ℕ
deriving DecidableEq, Repr

/-- `ETLatency.pack`: header then `'> 3I'`. -/
def ETLatency.pack (m : ETLatency) : Option (List ℕ) := do
  let hdr ← OFGMessage.pack m.xid
  let b1 ← packU 4 m.latency_ms_edge
  let b2 ← packU 4 m.latency_ms_agg
  let b3 ← packU 4 m.latency_ms_core
  return hdr ++ b1 ++ b2 ++ b3

/-- `ETSwitchesRequest` (type code 0xF6). -/
structure ETSwitchesRequest where
  k : ℕ
  xid : ℕ
deriving DecidableEq, Repr

/-- `ETSwitchesRequest.pack`: header then `'> I'`. -/
def ETSwitchesRequest.pack (m : ETSwitchesRequest) : Option (List ℕ) := do
  let hdr ← OFGMessage.pack m.xid
  let b ← packU 4 m.k
  return hdr ++ b

/-- `ETSwitchFailureChange` (type code 0xF7). -/
structure ETSwitchFailureChange where
  dpid : ℕ
  failed : Bool
  xid : ℕ
deriving DecidableEq, Repr

/-- `ETSwitchFailureChange.pack`: header then `'> QB'` with the boolean
written as `1 if self.failed else 0`. -/
def ETSwitchFailureChange.pack (m : ETSwitchFailureChange) : Option (List ℕ) := do
  let hdr ← OFGMessage.pack m.xid
  let d ← packU 8 m.dpid
  return hdr ++ d ++ [if m.failed then 1 else 0]

/-- `ETLinkFailureChange` (type code 0xF8). -/
structure ETLinkFailureChange where
  link : Link
  failed : Bool
  xid : ℕ
deriving DecidableEq, Repr

/-- `ETLinkFailureChange.pack`: header, the link's own `pack`, then
`'> B'` with the boolean written as `1 if self.failed else 0`. -/
def ETLinkFailureChange.pack (m : ETLinkFailureChange) : Option (List ℕ) := do
  let hdr ← OFGMessage.pack m.xid
  let lb ← Link.pack m.link
  return hdr ++ lb ++ [if m.failed then 1 else 0]

/-- `ETComputationDone` (type code 0xFF). -/
structure ETComputationDone where
  num_unplaced_flows : ℕ
  xid : ℕ
deriving DecidableEq, Repr

/-- `ETComputationDone.pack`: header then `'> I'`. -/
def ETComputationDone.pack (m : ETComputationDone) : Option (List ℕ) := do
  let hdr ← OFGMessage.pack m.xid
  let b ← packU 4 m.num_unplaced_flows
  return hdr ++ b

/-- The dynamic result type of the decode functions: each `unpack` returns
whatever message object its body constructs, which (because of the defects
traced below) is not always the variant whose codec was invoked. -/
inductive ETMsg where
  | trafficMatrix (m : ETTrafficMatrix)
  | linkUtils (m : ETLinkUtils)
  | powerUsage (m : ETPowerUsage)
  | bandwidth (m : ETBandwidth)
  | latency (m : ETLatency)
  | switchesRequest (m : ETSwitchesRequest)
  | switchFailureChange (m : ETSwitchFailureChange)
  | linkFailureChange (m : ETLinkFailureChange)
  | computationDone (m : ETComputationDone)
deriving DecidableEq, Repr

/-- `ETTrafficMatrix.unpack`: reads the xid, then
`struct.unpack('> 3B I 3f I', body[:23])`, and feeds the fields through the
constructor (whose `bool(...)` coercion makes any non-zero byte `True`); a
truncated body or a constructor raise is a failed decode. -/
def ETTrafficMatrix.unpack (body : List ℕ) : Option ETMsg := do
  let (xid, body) ← readU 4 body
  let (b0, body) ← readU 1 body
  let (b1, body) ← readU 1 body
  let (b2, body) ← readU 1 body
  let (k, body) ← readU 4 body
  let (demand, body) ← readF32 body
  let (edge, body) ← readF32 body
  let (agg, body) ← readF32 body
  let (plen, _) ← readU 4 body
  let m ← ETTrafficMatrix.init (decide (b0 ≠ 0)) b1 (decide (b2 ≠ 0)) k
    demand edge agg plen xid
  return .trafficMatrix m

/-- The loop body of `ETLinkUtils.unpack`: decodes `n` items, each by
`Link.unpack(body[:ETLinkUtil.SIZE])` — a plain link, the 4 utilization
bytes of the slice being ignored — then advances by `ETLinkUtil.SIZE`. -/
def ETLinkUtils.unpackItems : ℕ → List ℕ → Option (List UtilItem)
  | 0, _ => some []
  | n + 1, body => do
      let l ← Link.unpack (body.take ETLinkUtil.SIZE)
      let rest ← ETLinkUtils.unpackItems n (body.drop ETLinkUtil.SIZE)
      return .link l :: rest

/-- `ETLinkUtils.unpack`: reads the xid, computes
`num_utils = len(body) / ETLinkUtil.SIZE` with Python-2 floor division,
and decodes that many items; trailing bytes short of a full item are
dropped without error. -/
def ETLinkUtils.unpack (body : List ℕ) : Option ETMsg := do
  let (xid, body) ← readU 4 body
  let num_utils := body.length / ETLinkUtil.SIZE
  let utils ← ETLinkUtils.unpackItems num_utils body
  return .linkUtils ⟨utils, xid⟩

/-- `ETPowerUsage.unpack`: xid then three `u32` fields, constructing with
an explicit `watts_max`. -/
def ETPowerUsage.unpack (body : List ℕ) : Option ETMsg := do
  let (xid, body) ← readU 4 body
  let (watts_current, body) ← readU 4 body
  let (watts_traditional, body) ← readU 4 body
  let (watts_max, _) ← readU 4 body
  return .powerUsage (ETPowerUsage.init watts_current watts_traditional
    (some watts_max) xid)

/-- `ETBandwidth.unpack`: xid then the `u32` bandwidth — but the source
returns `ETPowerUsage(bandwidth_achieved_mbps, xid)`, i.e. a power-usage
message whose `watts_current` is the bandwidth, whose `watts_traditional`
(and hence defaulted `watts_max`) is the transaction id, and whose own xid
is the default 0. -/
def ETBandwidth.unpack (body : List ℕ) : Option ETMsg := do
  let (xid, body) ← readU 4 body
  let (bandwidth_achieved_mbps, _) ← readU 4 body
  return .powerUsage (ETPowerUsage.init bandwidth_achieved_mbps xid none 0)

/-- `ETLatency.unpack`: xid then three `u32` fields. -/
def ETLatency.unpack (body : List ℕ) : Option ETMsg := do
  let (xid, body) ← readU 4 body
  let (latency_ms_edge, body) ← readU 4 body
  let (latency_ms_agg, body) ← readU 4 body
  let (latency_ms_core, _) ← readU 4 body
  return .latency ⟨latency_ms_edge, latency_ms_agg, latency_ms_core, xid⟩

/-- `ETSwitchesRequest.unpack`: xid then the `u32` value of `k`. -/
def ETSwitchesRequest.unpack (body : List ℕ) : Option ETMsg := do
  let (xid, body) ← readU 4 body
  let (k, _) ← readU 4 body
  return .switchesRequest ⟨k, xid⟩

/-- `ETSwitchFailureChange.unpack`: xid, `u64` dpid, one `failed` byte;
the boolean is reconstructed as `True if failed==1 else False`. -/
def ETSwitchFailureChange.unpack (body : List ℕ) : Option ETMsg := do
  let (xid, body) ← readU 4 body
  let (dpid, body) ← readU 8 body
  let (failed, _) ← readU 1 body
  return .switchFailureChange ⟨dpid, decide (failed = 1), xid⟩

/-- `ETLinkFailureChange.unpack`: xid, `Link.unpack(body[:Link.SIZE])`,
one `failed` byte reconstructed as `True if failed==1 else False`. -/
def ETLinkFailureChange.unpack (body : List ℕ) : Option ETMsg := do
  let (xid, body) ← readU 4 body
  let link ← Link.unpack (body.take Link.SIZE)
  let body := body.drop Link.SIZE
  let (failed, _) ← readU 1 body
  return .linkFailureChange ⟨link, decide (failed = 1), xid⟩

/-- `ETComputationDone.unpack`: xid then the `u32` count — but the source
returns `ETPowerUsage(num_unplaced_flows, xid)`, a power-usage message,
like `ETBandwidth.unpack`. -/
def ETComputationDone.unpack (body : List ℕ) : Option ETMsg := do
  let (xid, body) ← readU 4 body
  let (num_unplaced_flows, _) ← readU 4 body
  return .powerUsage (ETPowerUsage.init num_unplaced_flows xid none 0)

/-- `ETTrafficMatrix.length`: `OFGMessage.SIZE + 23`. -/
def ETTrafficMatrix.length (_ : ETTrafficMatrix) : ℕ :=
  OFGMessage.SIZE + 23

/-- `ETPowerUsage.length`: `OFGMessage.SIZE + 12`. -/
def ETPowerUsage.length (_ : ETPowerUsage) : ℕ :=
  OFGMessage.SIZE + 12

/-- `ETBandwidth.length`: `OFGMessage.SIZE + 4`. -/
def ETBandwidth.length (_ : ETBandwidth) : ℕ :=
  OFGMessage.SIZE + 4

/-- `ETLatency.length`: `OFGMessage.SIZE + 12`. -/
def ETLatency.length (_ : ETLatency) : ℕ :=
  OFGMessage.SIZE + 12

/-- `ETSwitchesRequest.length`: `OFGMessage.SIZE + 4`. -/
def ETSwitchesRequest.length (_ : ETSwitchesRequest) : ℕ :=
  OFGMessage.SIZE + 4

/-- `ETSwitchFailureChange.length`: `OFGMessage.SIZE + 8 + 1`. -/
def ETSwitchFailureChange.length (_ : ETSwitchFailureChange) : ℕ :=
  OFGMessage.SIZE + 8 + 1

/-- `ETLinkFailureChange.length`: `OFGMessage.SIZE + Link.SIZE + 1`. -/
def ETLinkFailureChange.length (_ : ETLinkFailureChange) : ℕ :=
  OFGMessage.SIZE + Link.SIZE + 1

/-- `ETComputationDone.length`: `OFGMessage.SIZE + 4`. -/
def ETComputationDone.length (_ : ETComputationDone) : ℕ :=
  OFGMessage.SIZE + 4

/-- C1: the round-trip law `decode(encode(m)) == m` fails on the code.
For the valid `ETBandwidth` message with `bandwidth_achieved_mbps = 5` and
`xid = 7`, the encoded body is `[0,0,0,7, 0,0,0,5]`, but
`ETBandwidth.unpack` decodes that body to an `ETPowerUsage` message (with
`watts_current = 5`, `watts_traditional = watts_max = 7`, `xid = 0`), not
to the original message: the source's `unpack` constructs `ETPowerUsage`
instead of `ETBandwidth`. -/
theorem etBandwidth_roundtrip_violation :
    ETBandwidth.pack ⟨5, 7⟩ = some [0, 0, 0, 7, 0, 0, 0, 5] ∧
    ETBandwidth.unpack [0, 0, 0, 7, 0, 0, 0, 5] =
      some (.powerUsage ⟨5, 7, 7, 0⟩) ∧
    ETMsg.powerUsage ⟨5, 7, 7, 0⟩ ≠ ETMsg.bandwidth ⟨5, 7⟩ := by
  refine ⟨by decide, by decide, by decide⟩

/-- C2: decoding a LinkUtils (0xF1) body does not preserve the per-link
utilization read from the wire: for a one-item body the decoded item is a
plain `Link` carrying no utilization field, and the result is the same
whatever the four utilization bytes `u1 u2 u3 u4` on the wire are — the
source decodes each item with `Link.unpack`, discarding the utilization
(and likewise 0xF4/0xFF decode into `ETPowerUsage`, see
`etBandwidth_roundtrip_violation`). -/
theorem etLinkUtils_decode_discards_util (u1 u2 u3 u4 : ℕ) :
    ETLinkUtils.unpack
      ([0, 0, 0, 9] ++ [0, 1] ++ [0, 2, 0, 0, 0, 0, 0, 0, 0, 3] ++ [0, 4] ++
        [0, 5, 0, 0, 0, 0, 0, 0, 0, 6] ++ [0, 7] ++ [u1, u2, u3, u4]) =
    some (.linkUtils ⟨[.link ⟨1, ⟨2, 3⟩, 4, ⟨5, 6⟩, 7⟩], 9⟩) := by
  simp [ETLinkUtils.unpack, ETLinkUtils.unpackItems, Link.unpack, Node.unpack,
    readU, beVal, ETLinkUtil.SIZE, Link.SIZE, Node.SIZE]

/-- C6: `length` does not equal the encoded byte count for LinkUtils
messages — it does not return a number at all: for the empty-list LinkUtils
message the source's `length` computes `OFGMessage.SIZE + self.utils *
ETLinkUtil.SIZE`, adding an integer to a list, which raises `TypeError`,
while `pack` produces a 4-byte payload (a 7-byte frame with the 3-byte
length/type framing). -/
theorem etLinkUtils_length_raises :
    ETLinkUtils.length ⟨[], 0⟩ = none ∧
    (ETLinkUtils.pack ⟨[], 0⟩).map List.length = some 4 := by
  refine ⟨rfl, by decide⟩

/-- C4 (counterexample): a LinkUtils body whose length after the 4-byte
xid is 29 — one byte short of one full `ETLinkUtil.SIZE = 30` item — is
claimed to fail decoding, but the source decodes it successfully to an
empty item list, silently dropping the 29 trailing bytes
(`num_utils = len(body) / ETLinkUtil.SIZE` floor-divides). -/
theorem etLinkUtils_partial_record_decoded :
    29 % ETLinkUtil.SIZE ≠ 0 ∧
    ETLinkUtils.unpack ([0, 0, 0, 5] ++ List.replicate 29 0) =
      some (.linkUtils ⟨[], 5⟩) := by
  refine ⟨by decide, by decide⟩

theorem node_unpack_isSome (bs : List ℕ) (h : Node.SIZE ≤ bs.length) :
    ∃ n, Node.unpack bs = some n := by
  have h10 : 10 ≤ bs.length := h
  unfold Node.unpack
  rw [readU_eq_some (show 2 ≤ bs.length by omega)]
  simp only [Option.bind_eq_bind', Option.some_bind]
  rw [readU_eq_some (show 8 ≤ (bs.drop 2).length by simp; omega)]
  simp only [Option.bind_eq_bind', Option.some_bind]
  exact ⟨_, rfl⟩

theorem link_unpack_isSome (bs : List ℕ) (h : Link.SIZE ≤ bs.length) :
    ∃ l, Link.unpack bs = some l := by
  have h26 : 26 ≤ bs.length := h
  unfold Link.unpack
  rw [readU_eq_some (show 2 ≤ bs.length by omega)]
  simp only [Option.bind_eq_bind', Option.some_bind]
  obtain ⟨n1, hn1⟩ := node_unpack_isSome
    ((bs.drop 2).take Node.SIZE)
    (by simp [Node.SIZE]; omega)
  rw [hn1]
  simp only [Option.bind_eq_bind', Option.some_bind]
  rw [readU_eq_some (show 2 ≤ ((bs.drop 2).drop Node.SIZE).length by
    simp [Node.SIZE]; omega)]
  simp only [Option.bind_eq_bind', Option.some_bind]
  obtain ⟨n2, hn2⟩ := node_unpack_isSome
    (((((bs.drop 2).drop Node.SIZE).drop 2).take Node.SIZE))
    (by simp [Node.SIZE]; omega)
  rw [hn2]
  simp only [Option.bind_eq_bind', Option.some_bind]
  rw [readU_eq_some (show 2 ≤ ((((bs.drop 2).drop Node.SIZE).drop 2).drop
      Node.SIZE).length by simp [Node.SIZE]; omega)]
  simp only [Option.bind_eq_bind', Option.some_bind]
  exact ⟨_, rfl⟩

theorem etLinkUtils_unpackItems_isSome (n : ℕ) :
    ∀ body : List ℕ, ETLinkUtil.SIZE * n ≤ body.length →
      ∃ l, ETLinkUtils.unpackItems n body = some l ∧ l.length = n := by
  induction n with
  | zero => intro body _; exact ⟨[], rfl, rfl⟩
  | succ n ih =>
      intro body h
      have hsz : ETLinkUtil.SIZE = 30 := rfl
      have hlen : 30 * (n + 1) ≤ body.length := by rw [← hsz]; exact h
      obtain ⟨lk, hlk⟩ := link_unpack_isSome
        (body.take ETLinkUtil.SIZE)
        (by simp [ETLinkUtil.SIZE, Link.SIZE]; omega)
      obtain ⟨rest, hrest, hrlen⟩ := ih (body.drop ETLinkUtil.SIZE)
        (by simp [hsz]; omega)
      refine ⟨.link lk :: rest, ?_, by simp [hrlen]⟩
      unfold ETLinkUtils.unpackItems
      rw [hlk]
      simp only [Option.bind_eq_bind', Option.some_bind]
      rw [hrest]
      rfl

/-- C4 (amended): for every LinkUtils body with at least the 4 xid bytes,
decoding succeeds — whatever the body length — and yields
`⌊(len - 4) / ETLinkUtil.SIZE⌋` items: the decoder derives the item count
by floor division and silently drops any trailing partial record instead
of failing. -/
theorem etLinkUtils_unpack_drops_partial (body : List ℕ)
    (h : 4 ≤ body.length) :
    ∃ m : ETLinkUtils, ETLinkUtils.unpack body = some (.linkUtils m) ∧
      m.utils.length = (body.length - 4) / ETLinkUtil.SIZE := by
  unfold ETLinkUtils.unpack
  rw [readU_eq_some h]
  simp only [Option.bind_eq_bind', Option.some_bind]
  obtain ⟨l, hl, hlen⟩ := etLinkUtils_unpackItems_isSome
    ((body.drop 4).length / ETLinkUtil.SIZE) (body.drop 4)
    (by
      rw [mul_comm]
      exact Nat.div_mul_le_self _ _)
  rw [hl]
  simp only [Option.bind_eq_bind', Option.some_bind]
  exact ⟨⟨l, beVal (body.take 4)⟩, rfl, by simpa using hlen⟩

/-- Witness for `etLinkUtils_unpack_drops_partial` at the concrete
33-byte body `[0,0,0,5] ++ 29 zero bytes` (29 trailing bytes: no full
item). -/
theorem etLinkUtils_unpack_drops_partial_witness :
    ∃ m : ETLinkUtils,
      ETLinkUtils.unpack ([0, 0, 0, 5] ++ List.replicate 29 0) =
        some (.linkUtils m) ∧
      m.utils.length =
        (([0, 0, 0, 5] ++ List.replicate 29 0 : List ℕ).length - 4) /
          ETLinkUtil.SIZE :=
  etLinkUtils_unpack_drops_partial ([0, 0, 0, 5] ++ List.replicate 29 0)
    (by simp)

theorem readF32_eq_none {bs : List ℕ} (h : bs.length < 4) :
    readF32 bs = none := by
  simp [readF32]; omega

theorem readF32_eq_some {bs : List ℕ} (h : 4 ≤ bs.length) :
    readF32 bs = some (((beVal (bs.take 4) : ℕ) : ℚ), bs.drop 4) := by
  simp [readF32, h]

theorem etTrafficMatrix_unpack_of_short {body : List ℕ} (h : body.length < 27) :
    ETTrafficMatrix.unpack body = none := by
  unfold ETTrafficMatrix.unpack
  rcases Nat.lt_or_ge (body).length 4 with h0 | h0
  · rw [readU_eq_none h0]; rfl
  · rw [readU_eq_some h0]
    simp only [Option.bind_eq_bind', Option.some_bind]
    rcases Nat.lt_or_ge ((body.drop 4)).length 1 with h1 | h1
    · rw [readU_eq_none h1]; rfl
    · rw [readU_eq_some h1]
      simp only [Option.bind_eq_bind', Option.some_bind]
      rcases Nat.lt_or_ge ((((body.drop 4)).drop 1)).length 1 with h2 | h2
      · rw [readU_eq_none h2]; rfl
      · rw [readU_eq_some h2]
        simp only [Option.bind_eq_bind', Option.some_bind]
        rcases Nat.lt_or_ge ((((((body.drop 4)).drop 1)).drop 1)).length 1 with h3 | h3
        · rw [readU_eq_none h3]; rfl
        · rw [readU_eq_some h3]
          simp only [Option.bind_eq_bind', Option.some_bind]
          rcases Nat.lt_or_ge ((((((((body.drop 4)).drop 1)).drop 1)).drop 1)).length 4 with h4 | h4
          · rw [readU_eq_none h4]; rfl
          · rw [readU_eq_some h4]
            simp only [Option.bind_eq_bind', Option.some_bind]
            rcases Nat.lt_or_ge ((((((((((body.drop 4)).drop 1)).drop 1)).drop 1)).drop 4)).length 4 with h5 | h5
            · rw [readF32_eq_none h5]; rfl
            · rw [readF32_eq_some h5]
              simp only [Option.bind_eq_bind', Option.some_bind]
              rcases Nat.lt_or_ge ((((((((((((body.drop 4)).drop 1)).drop 1)).drop 1)).drop 4)).drop 4)).length 4 with h6 | h6
              · rw [readF32_eq_none h6]; rfl
              · rw [readF32_eq_some h6]
                simp only [Option.bind_eq_bind', Option.some_bind]
                rcases Nat.lt_or_ge ((((((((((((((body.drop 4)).drop 1)).drop 1)).drop 1)).drop 4)).drop 4)).drop 4)).length 4 with h7 | h7
                · rw [readF32_eq_none h7]; rfl
                · rw [readF32_eq_some h7]
                  simp only [Option.bind_eq_bind', Option.some_bind]
                  rw [readU_eq_none (show ((((((((((((((((body.drop 4)).drop 1)).drop 1)).drop 1)).drop 4)).drop 4)).drop 4)).drop 4)).length < 4 by simp; omega)]
                  rfl

theorem etPowerUsage_unpack_of_short {body : List ℕ} (h : body.length < 16) :
    ETPowerUsage.unpack body = none := by
  unfold ETPowerUsage.unpack
  rcases Nat.lt_or_ge (body).length 4 with h0 | h0
  · rw [readU_eq_none h0]; rfl
  · rw [readU_eq_some h0]
    simp only [Option.bind_eq_bind', Option.some_bind]
    rcases Nat.lt_or_ge ((body.drop 4)).length 4 with h1 | h1
    · rw [readU_eq_none h1]; rfl
    · rw [readU_eq_some h1]
      simp only [Option.bind_eq_bind', Option.some_bind]
      rcases Nat.lt_or_ge ((((body.drop 4)).drop 4)).length 4 with h2 | h2
      · rw [readU_eq_none h2]; rfl
      · rw [readU_eq_some h2]
        simp only [Option.bind_eq_bind', Option.some_bind]
        rw [readU_eq_none (show ((((((body.drop 4)).drop 4)).drop 4)).length < 4 by simp; omega)]
        rfl

theorem etBandwidth_unpack_of_short {body : List ℕ} (h : body.length < 8) :
    ETBandwidth.unpack body = none := by
  unfold ETBandwidth.unpack
  rcases Nat.lt_or_ge (body).length 4 with h0 | h0
  · rw [readU_eq_none h0]; rfl
  · rw [readU_eq_some h0]
    simp only [Option.bind_eq_bind', Option.some_bind]
    rw [readU_eq_none (show ((body.drop 4)).length < 4 by simp; omega)]
    rfl

theorem etLatency_unpack_of_short {body : List ℕ} (h : body.length < 16) :
    ETLatency.unpack body = none := by
  unfold ETLatency.unpack
  rcases Nat.lt_or_ge (body).length 4 with h0 | h0
  · rw [readU_eq_none h0]; rfl
  · rw [readU_eq_some h0]
    simp only [Option.bind_eq_bind', Option.some_bind]
    rcases Nat.lt_or_ge ((body.drop 4)).length 4 with h1 | h1
    · rw [readU_eq_none h1]; rfl
    · rw [readU_eq_some h1]
      simp only [Option.bind_eq_bind', Option.some_bind]
      rcases Nat.lt_or_ge ((((body.drop 4)).drop 4)).length 4 with h2 | h2
      · rw [readU_eq_none h2]; rfl
      · rw [readU_eq_some h2]
        simp only [Option.bind_eq_bind', Option.some_bind]
        rw [readU_eq_none (show ((((((body.drop 4)).drop 4)).drop 4)).length < 4 by simp; omega)]
        rfl

theorem etSwitchesRequest_unpack_of_short {body : List ℕ} (h : body.length < 8) :
    ETSwitchesRequest.unpack body = none := by
  unfold ETSwitchesRequest.unpack
  rcases Nat.lt_or_ge (body).length 4 with h0 | h0
  · rw [readU_eq_none h0]; rfl
  · rw [readU_eq_some h0]
    simp only [Option.bind_eq_bind', Option.some_bind]
    rw [readU_eq_none (show ((body.drop 4)).length < 4 by simp; omega)]
    rfl

theorem etSwitchFailureChange_unpack_of_short {body : List ℕ} (h : body.length < 13) :
    ETSwitchFailureChange.unpack body = none := by
  unfold ETSwitchFailureChange.unpack
  rcases Nat.lt_or_ge (body).length 4 with h0 | h0
  · rw [readU_eq_none h0]; rfl
  · rw [readU_eq_some h0]
    simp only [Option.bind_eq_bind', Option.some_bind]
    rcases Nat.lt_or_ge ((body.drop 4)).length 8 with h1 | h1
    · rw [readU_eq_none h1]; rfl
    · rw [readU_eq_some h1]
      simp only [Option.bind_eq_bind', Option.some_bind]
      rw [readU_eq_none (show ((((body.drop 4)).drop 8)).length < 1 by simp; omega)]
      rfl

theorem etComputationDone_unpack_of_short {body : List ℕ} (h : body.length < 8) :
    ETComputationDone.unpack body = none := by
  unfold ETComputationDone.unpack
  rcases Nat.lt_or_ge (body).length 4 with h0 | h0
  · rw [readU_eq_none h0]; rfl
  · rw [readU_eq_some h0]
    simp only [Option.bind_eq_bind', Option.some_bind]
    rw [readU_eq_none (show ((body.drop 4)).length < 4 by simp; omega)]
    rfl

theorem node_unpack_of_short {bs : List ℕ}
    (h : bs.length < Node.SIZE) : Node.unpack bs = none := by
  have h10 : bs.length < 10 := h
  unfold Node.unpack
  rcases Nat.lt_or_ge bs.length 2 with h0 | h0
  · rw [readU_eq_none h0]; rfl
  · rw [readU_eq_some h0]
    simp only [Option.bind_eq_bind', Option.some_bind]
    rw [readU_eq_none (show (bs.drop 2).length < 8 by simp; omega)]
    rfl

theorem link_unpack_of_short {bs : List ℕ}
    (h : bs.length < Link.SIZE) : Link.unpack bs = none := by
  have h26 : bs.length < 26 := h
  unfold Link.unpack
  rcases Nat.lt_or_ge bs.length 2 with h0 | h0
  · rw [readU_eq_none h0]; rfl
  · rw [readU_eq_some h0]
    simp only [Option.bind_eq_bind', Option.some_bind]
    rcases Nat.lt_or_ge (bs.length - 2) 10 with h1 | h1
    · rw [node_unpack_of_short
        (show ((bs.drop 2).take Node.SIZE).length < Node.SIZE by
          simp [Node.SIZE]; omega)]
      rfl
    · obtain ⟨n1, hn1⟩ := node_unpack_isSome
        ((bs.drop 2).take Node.SIZE)
        (show Node.SIZE ≤ _ by simp [Node.SIZE]; omega)
      rw [hn1]
      simp only [Option.bind_eq_bind', Option.some_bind]
      rcases Nat.lt_or_ge (bs.length - 12) 2 with h2 | h2
      · rw [readU_eq_none
          (show ((bs.drop 2).drop Node.SIZE).length < 2 by
            simp [Node.SIZE]; omega)]
        rfl
      · rw [readU_eq_some
          (show 2 ≤ ((bs.drop 2).drop Node.SIZE).length by
            simp [Node.SIZE]; omega)]
        simp only [Option.bind_eq_bind', Option.some_bind]
        rcases Nat.lt_or_ge (bs.length - 14) 10 with h3 | h3
        · rw [node_unpack_of_short
            (show ((((bs.drop 2).drop Node.SIZE).drop 2).take
                Node.SIZE).length < Node.SIZE by simp [Node.SIZE]; omega)]
          rfl
        · obtain ⟨n2, hn2⟩ := node_unpack_isSome
            ((((bs.drop 2).drop Node.SIZE).drop 2).take Node.SIZE)
            (show Node.SIZE ≤ _ by simp [Node.SIZE]; omega)
          rw [hn2]
          simp only [Option.bind_eq_bind', Option.some_bind]
          rw [readU_eq_none
            (show ((((bs.drop 2).drop Node.SIZE).drop 2).drop
                Node.SIZE).length < 2 by simp [Node.SIZE]; omega)]
          rfl

theorem etLinkFailureChange_unpack_of_short {body : List ℕ}
    (h : body.length < 31) : ETLinkFailureChange.unpack body = none := by
  unfold ETLinkFailureChange.unpack
  rcases Nat.lt_or_ge body.length 4 with h0 | h0
  · rw [readU_eq_none h0]; rfl
  · rw [readU_eq_some h0]
    simp only [Option.bind_eq_bind', Option.some_bind]
    rcases Nat.lt_or_ge (body.length - 4) 26 with h1 | h1
    · rw [link_unpack_of_short
        (show ((body.drop 4).take Link.SIZE).length < Link.SIZE by
          simp [Link.SIZE]; omega)]
      rfl
    · obtain ⟨l, hl⟩ := link_unpack_isSome
        ((body.drop 4).take Link.SIZE)
        (show Link.SIZE ≤ _ by simp [Link.SIZE]; omega)
      rw [hl]
      simp only [Option.bind_eq_bind', Option.some_bind]
      rw [readU_eq_none
        (show ((body.drop 4).drop Link.SIZE).length < 1 by
          simp [Link.SIZE]; omega)]
      rfl

/-- C9: every fixed-layout variant rejects a truncated body: decoding a
body with fewer bytes than the variant's fixed layout requires (xid
included) fails — `struct.unpack` on a short slice raises, modelled as
`none`.  Required sizes: TrafficMatrix 27, PowerUsage 16,
BandwidthAchieved 8, Latency 16, SwitchesRequest 8, SwitchFailureChange
13, LinkFailureChange 31, ComputationDone 8. -/
theorem truncated_body_decode_fails :
    (∀ body : List ℕ, body.length < 27 → ETTrafficMatrix.unpack body = none) ∧
    (∀ body : List ℕ, body.length < 16 → ETPowerUsage.unpack body = none) ∧
    (∀ body : List ℕ, body.length < 8 → ETBandwidth.unpack body = none) ∧
    (∀ body : List ℕ, body.length < 16 → ETLatency.unpack body = none) ∧
    (∀ body : List ℕ, body.length < 8 → ETSwitchesRequest.unpack body = none) ∧
    (∀ body : List ℕ, body.length < 13 →
      ETSwitchFailureChange.unpack body = none) ∧
    (∀ body : List ℕ, body.length < 31 →
      ETLinkFailureChange.unpack body = none) ∧
    (∀ body : List ℕ, body.length < 8 → ETComputationDone.unpack body = none) :=
  ⟨fun _ h => etTrafficMatrix_unpack_of_short h,
   fun _ h => etPowerUsage_unpack_of_short h,
   fun _ h => etBandwidth_unpack_of_short h,
   fun _ h => etLatency_unpack_of_short h,
   fun _ h => etSwitchesRequest_unpack_of_short h,
   fun _ h => etSwitchFailureChange_unpack_of_short h,
   fun _ h => etLinkFailureChange_unpack_of_short h,
   fun _ h => etComputationDone_unpack_of_short h⟩

/-- Witness for `truncated_body_decode_fails`: every variant's decoder
fails on the 3-byte body `[0,0,0]`, shorter even than the 4-byte xid. -/
theorem truncated_body_decode_fails_witness :
    ETTrafficMatrix.unpack [0, 0, 0] = none ∧
    ETPowerUsage.unpack [0, 0, 0] = none ∧
    ETBandwidth.unpack [0, 0, 0] = none ∧
    ETLatency.unpack [0, 0, 0] = none ∧
    ETSwitchesRequest.unpack [0, 0, 0] = none ∧
    ETSwitchFailureChange.unpack [0, 0, 0] = none ∧
    ETLinkFailureChange.unpack [0, 0, 0] = none ∧
    ETComputationDone.unpack [0, 0, 0] = none :=
  ⟨truncated_body_decode_fails.1 [0, 0, 0] (by decide),
   truncated_body_decode_fails.2.1 [0, 0, 0] (by decide),
   truncated_body_decode_fails.2.2.1 [0, 0, 0] (by decide),
   truncated_body_decode_fails.2.2.2.1 [0, 0, 0] (by decide),
   truncated_body_decode_fails.2.2.2.2.1 [0, 0, 0] (by decide),
   truncated_body_decode_fails.2.2.2.2.2.1 [0, 0, 0] (by decide),
   truncated_body_decode_fails.2.2.2.2.2.2.1 [0, 0, 0] (by decide),
   truncated_body_decode_fails.2.2.2.2.2.2.2 [0, 0, 0] (by decide)⟩

theorem beVal_singleton (b : ℕ) : beVal [b] = b := by
  simp [beVal]

theorem readU_exact {w : ℕ} {xs : List ℕ} (h : xs.length = w) :
    readU w xs = some (beVal xs, []) := by
  subst h
  rw [readU_eq_some (le_refl _), List.take_length, List.drop_length]

theorem switchFailureChange_unpack_parts (b d x : ℕ) (hd : d < 2 ^ 64)
    (hx : x < 2 ^ 32) :
    ETSwitchFailureChange.unpack (beBytes 4 x ++ (beBytes 8 d ++ [b])) =
      some (.switchFailureChange ⟨d, decide (b = 1), x⟩) := by
  have hx' : x < 256 ^ 4 := by norm_num; omega
  have hd' : d < 256 ^ 8 := by norm_num; omega
  unfold ETSwitchFailureChange.unpack
  rw [readU_append (length_beBytes 4 x)]
  simp only [Option.bind_eq_bind', Option.some_bind]
  rw [readU_append (length_beBytes 8 d)]
  simp only [Option.bind_eq_bind', Option.some_bind]
  rw [readU_exact (show ([b] : List ℕ).length = 1 by rfl)]
  simp only [Option.bind_eq_bind', Option.some_bind]
  rw [beVal_beBytes_of_lt hx', beVal_beBytes_of_lt hd', beVal_singleton]
  rfl

theorem linkFailureChange_unpack_parts (b x : ℕ) (lb : List ℕ)
    (hx : x < 2 ^ 32) (hlb : lb.length = Link.SIZE) :
    ∃ L : Link,
      ETLinkFailureChange.unpack (beBytes 4 x ++ (lb ++ [b])) =
        some (.linkFailureChange ⟨L, decide (b = 1), x⟩) := by
  have hx' : x < 256 ^ 4 := by norm_num; omega
  unfold ETLinkFailureChange.unpack
  rw [readU_append (length_beBytes 4 x)]
  simp only [Option.bind_eq_bind', Option.some_bind]
  have htake : (lb ++ [b]).take Link.SIZE = lb := by
    rw [← hlb, List.take_left]
  have hdrop : (lb ++ [b]).drop Link.SIZE = [b] := by
    rw [← hlb, List.drop_left]
  rw [htake, hdrop]
  obtain ⟨L, hL⟩ := link_unpack_isSome (lb) (le_of_eq hlb.symm)
  rw [hL]
  simp only [Option.bind_eq_bind', Option.some_bind]
  rw [readU_exact (show ([b] : List ℕ).length = 1 by rfl)]
  simp only [Option.bind_eq_bind', Option.some_bind]
  rw [beVal_beBytes_of_lt hx', beVal_singleton]
  exact ⟨L, rfl⟩

/-- C5 (counterexample): the claim says the `failed` byte decodes by the
non-zero-is-true rule, so byte value 2 should decode to `failed = true`;
the source reconstructs the boolean with `True if failed==1 else False`,
so the body with xid 1, dpid 0 and `failed` byte 2 decodes (it is not
rejected) but yields `failed = false` although `2 ≠ 0`. -/
theorem etSwitchFailure_byte_two_decodes_false :
    ETSwitchFailureChange.unpack [0, 0, 0, 1, 0, 0, 0, 0, 0, 0, 0, 0, 2] =
      some (.switchFailureChange ⟨0, false, 1⟩) ∧ (2 : ℕ) ≠ 0 := by
  refine ⟨by decide, by decide⟩

/-- C5 (amended): for every byte value `b` in 0..255 (indeed every `b`),
decoding a SwitchFailureChange or LinkFailureChange body whose `failed`
byte is `b` succeeds — no byte value is rejected — and yields
`failed = true` if and only if `b = 1` (the source's `failed==1` rule, not
non-zero-is-true). -/
theorem failureChange_failed_byte_rule (b d x : ℕ) (lb : List ℕ)
    (hd : d < 2 ^ 64) (hx : x < 2 ^ 32) (hlb : lb.length = Link.SIZE) :
    ETSwitchFailureChange.unpack (beBytes 4 x ++ (beBytes 8 d ++ [b])) =
      some (.switchFailureChange ⟨d, decide (b = 1), x⟩) ∧
    ∃ L : Link,
      ETLinkFailureChange.unpack (beBytes 4 x ++ (lb ++ [b])) =
        some (.linkFailureChange ⟨L, decide (b = 1), x⟩) :=
  ⟨switchFailureChange_unpack_parts b d x hd hx,
   linkFailureChange_unpack_parts b x lb hx hlb⟩

/-- Witness for `failureChange_failed_byte_rule` at `b = 2`, `d = 0`,
`x = 1`, link bytes all zero: the byte 2 decodes (to `failed = false`). -/
theorem failureChange_failed_byte_rule_witness :
    ETSwitchFailureChange.unpack
        (beBytes 4 1 ++ (beBytes 8 0 ++ [2])) =
      some (.switchFailureChange ⟨0, decide ((2 : ℕ) = 1), 1⟩) ∧
    ∃ L : Link,
      ETLinkFailureChange.unpack
          (beBytes 4 1 ++ (List.replicate 26 0 ++ [2])) =
        some (.linkFailureChange ⟨L, decide ((2 : ℕ) = 1), 1⟩) :=
  failureChange_failed_byte_rule 2 0 1 (List.replicate 26 0)
    (by norm_num) (by norm_num) (by decide)

/-- C7: for every unsigned 64-bit `d`, encoding an `ETSwitchFailureChange`
with `dpid = d` and decoding the resulting body yields `dpid = d` exactly
(the dpid travels as a big-endian `u64` and the full range round-trips). -/
theorem etSwitchFailureChange_dpid_roundtrip (d x : ℕ) (f : Bool)
    (hd : d < 2 ^ 64) (hx : x < 2 ^ 32) :
    ∃ m : ETSwitchFailureChange,
      (ETSwitchFailureChange.pack ⟨d, f, x⟩).bind
          ETSwitchFailureChange.unpack =
        some (.switchFailureChange m) ∧ m.dpid = d := by
  have hx' : x < 256 ^ 4 := by norm_num; omega
  have hd' : d < 256 ^ 8 := by norm_num; omega
  refine ⟨⟨d, decide ((if f then 1 else 0 : ℕ) = 1), x⟩, ?_, rfl⟩
  unfold ETSwitchFailureChange.pack OFGMessage.pack
  rw [packU_eq_some hx', packU_eq_some hd']
  simp only [Option.bind_eq_bind', Option.some_bind, Option.pure_def]
  have : (beBytes 4 x ++ beBytes 8 d ++ [if f then 1 else 0] : List ℕ) =
      beBytes 4 x ++ (beBytes 8 d ++ [if f then 1 else 0]) := by
    simp [List.append_assoc]
  rw [this]
  exact switchFailureChange_unpack_parts _ d x hd hx

/-- Witness for `etSwitchFailureChange_dpid_roundtrip` at the extreme
`dpid = 2^64 - 1`. -/
theorem etSwitchFailureChange_dpid_roundtrip_witness :
    ∃ m : ETSwitchFailureChange,
      (ETSwitchFailureChange.pack ⟨2 ^ 64 - 1, false, 0⟩).bind
          ETSwitchFailureChange.unpack =
        some (.switchFailureChange m) ∧ m.dpid = 2 ^ 64 - 1 :=
  etSwitchFailureChange_dpid_roundtrip (2 ^ 64 - 1) 0 false
    (by norm_num) (by norm_num)

/-- C8: an `ETPowerUsage` constructed without an explicit `watts_max`
(the Python default `watts_max=None`) has `watts_max = watts_traditional`
right after construction, and the equality still holds after packing that
message and unpacking the resulting body. -/
theorem etPowerUsage_default_max_roundtrip (wc wt x : ℕ)
    (hc : wc < 2 ^ 32) (ht : wt < 2 ^ 32) (hx : x < 2 ^ 32) :
    (ETPowerUsage.init wc wt none x).watts_max =
      (ETPowerUsage.init wc wt none x).watts_traditional ∧
    ∃ m : ETPowerUsage,
      (ETPowerUsage.pack (ETPowerUsage.init wc wt none x)).bind
          ETPowerUsage.unpack =
        some (.powerUsage m) ∧ m.watts_max = m.watts_traditional := by
  have hc' : wc < 256 ^ 4 := by norm_num; omega
  have ht' : wt < 256 ^ 4 := by norm_num; omega
  have hx' : x < 256 ^ 4 := by norm_num; omega
  refine ⟨rfl, ⟨wc, wt, wt, x⟩, ?_, rfl⟩
  unfold ETPowerUsage.pack OFGMessage.pack ETPowerUsage.init
  rw [packU_eq_some hx', packU_eq_some hc', packU_eq_some ht']
  simp only [Option.getD_none, Option.bind_eq_bind', Option.some_bind,
    Option.pure_def]
  rw [packU_eq_some ht']
  simp only [Option.bind_eq_bind', Option.some_bind]
  have hassoc : (beBytes 4 x ++ beBytes 4 wc ++ beBytes 4 wt ++ beBytes 4 wt :
      List ℕ) =
      beBytes 4 x ++ (beBytes 4 wc ++ (beBytes 4 wt ++ beBytes 4 wt)) := by
    simp [List.append_assoc]
  rw [hassoc]
  unfold ETPowerUsage.unpack
  rw [readU_append (length_beBytes 4 x)]
  simp only [Option.bind_eq_bind', Option.some_bind]
  rw [readU_append (length_beBytes 4 wc)]
  simp only [Option.bind_eq_bind', Option.some_bind]
  rw [readU_append (length_beBytes 4 wt)]
  simp only [Option.bind_eq_bind', Option.some_bind]
  rw [readU_exact (length_beBytes 4 wt)]
  simp only [Option.bind_eq_bind', Option.some_bind]
  rw [beVal_beBytes_of_lt hx', beVal_beBytes_of_lt hc',
    beVal_beBytes_of_lt ht']
  rfl

/-- Witness for `etPowerUsage_default_max_roundtrip` at
`watts_current = 350`, `watts_traditional = 500`, `xid = 3`. -/
theorem etPowerUsage_default_max_roundtrip_witness :
    (ETPowerUsage.init 350 500 none 3).watts_max =
      (ETPowerUsage.init 350 500 none 3).watts_traditional ∧
    ∃ m : ETPowerUsage,
      (ETPowerUsage.pack (ETPowerUsage.init 350 500 none 3)).bind
          ETPowerUsage.unpack =
        some (.powerUsage m) ∧ m.watts_max = m.watts_traditional :=
  etPowerUsage_default_max_roundtrip 350 500 3 (by norm_num) (by norm_num)
    (by norm_num)

theorem etTrafficMatrix_init_isSome_iff (u : Bool) (s : ℤ) (ms : Bool)
    (k : ℤ) (d e a : ℚ) (p : ℤ) (x : ℕ) :
    (ETTrafficMatrix.init u s ms k d e a p x).isSome ↔
      (0 ≤ d ∧ d ≤ 1 ∧ 0 ≤ e ∧ e ≤ 1 ∧ 0 ≤ a ∧ a + e ≤ 101 / 100) := by
  unfold ETTrafficMatrix.init
  split_ifs with h1 h2 h3
  · simp only [Option.isSome_none, Bool.false_eq_true, false_iff]
    rintro ⟨hd0, hd1, he0, he1, ha0, _⟩
    rcases h1 with h | h | h | h | h | h <;> linarith
  · simp only [Option.isSome_none, Bool.false_eq_true, false_iff]
    rintro ⟨_, _, _, _, _, hs⟩
    linarith
  · push_neg at h1
    obtain ⟨hd0, hd1, he0, he1, ha0, -⟩ := h1
    simp only [Option.isSome_some, true_iff]
    exact ⟨hd0, hd1, he0, he1, ha0, by linarith⟩
  · push_neg at h1 h2
    obtain ⟨hd0, hd1, he0, he1, ha0, -⟩ := h1
    simp only [Option.isSome_some, true_iff]
    refine ⟨hd0, hd1, he0, he1, ha0, by linarith⟩

/-- C3: `ETTrafficMatrix` construction behaves as tabulated.  With the
other fields valid, construction succeeds with `demand`, `edge` or `agg`
pinned at exactly 0 or 1 (for `edge = 1` or `agg = 1` the other of the
pair must leave `agg + edge ≤ 1.01`); succeeds unchanged when
`agg + edge = 1`; succeeds with `agg` replaced by `1 - edge` when
`agg + edge = 1.005`; and fails when `agg + edge = 1.02`, when `demand`
or `edge` leaves `[0,1]`, or when `agg` is negative. -/
theorem etTrafficMatrix_construction_cases (u : Bool) (s : ℤ) (ms : Bool)
    (k : ℤ) (d e a : ℚ) (p : ℤ) (x : ℕ)
    (hd : 0 ≤ d ∧ d ≤ 1) (he : 0 ≤ e ∧ e ≤ 1) (ha : 0 ≤ a ∧ a ≤ 1) :
    (a + e ≤ 1 →
      (ETTrafficMatrix.init u s ms k 0 e a p x).isSome ∧
      (ETTrafficMatrix.init u s ms k 1 e a p x).isSome) ∧
    (ETTrafficMatrix.init u s ms k d 0 a p x).isSome ∧
    (a ≤ 1 / 100 → (ETTrafficMatrix.init u s ms k d 1 a p x).isSome) ∧
    (ETTrafficMatrix.init u s ms k d e 0 p x).isSome ∧
    (e ≤ 1 / 100 → (ETTrafficMatrix.init u s ms k d e 1 p x).isSome) ∧
    (a + e = 1 →
      ETTrafficMatrix.init u s ms k d e a p x =
        some ⟨u, s, ms, k, d, e, a, p, x⟩) ∧
    (a + e = 201 / 200 →
      ETTrafficMatrix.init u s ms k d e a p x =
        some ⟨u, s, ms, k, d, e, 1 - e, p, x⟩) ∧
    (a + e = 51 / 50 → ETTrafficMatrix.init u s ms k d e a p x = none) ∧
    (∀ d' : ℚ, d' < 0 ∨ 1 < d' →
      ETTrafficMatrix.init u s ms k d' e a p x = none) ∧
    (∀ e' : ℚ, e' < 0 ∨ 1 < e' →
      ETTrafficMatrix.init u s ms k d e' a p x = none) ∧
    (∀ a' : ℚ, a' < 0 →
      ETTrafficMatrix.init u s ms k d e a' p x = none) := by
  obtain ⟨hd0, hd1⟩ := hd
  obtain ⟨he0, he1⟩ := he
  obtain ⟨ha0, ha1⟩ := ha
  refine ⟨?_, ?_, ?_, ?_, ?_, ?_, ?_, ?_, ?_, ?_, ?_⟩
  · intro hs
    constructor <;>
      · rw [etTrafficMatrix_init_isSome_iff]
        refine ⟨by linarith, by linarith, he0, he1, ha0, by linarith⟩
  · rw [etTrafficMatrix_init_isSome_iff]
    refine ⟨hd0, hd1, le_refl 0, by norm_num, ha0, by linarith⟩
  · intro hsmall
    rw [etTrafficMatrix_init_isSome_iff]
    refine ⟨hd0, hd1, by norm_num, le_refl 1, ha0, by linarith⟩
  · rw [etTrafficMatrix_init_isSome_iff]
    refine ⟨hd0, hd1, he0, he1, le_refl 0, by linarith⟩
  · intro hsmall
    rw [etTrafficMatrix_init_isSome_iff]
    refine ⟨hd0, hd1, he0, he1, by norm_num, by linarith⟩
  · intro hsum
    unfold ETTrafficMatrix.init
    rw [if_neg, if_neg]
    · linarith
    · rintro (h | h | h | h | h | h) <;> linarith
  · intro hsum
    unfold ETTrafficMatrix.init
    rw [if_neg, if_pos, if_neg]
    · rw [hsum]; norm_num
    · linarith [hsum]
    · rintro (h | h | h | h | h | h) <;> linarith [hsum]
  · intro hsum
    unfold ETTrafficMatrix.init
    rw [if_neg, if_pos, if_pos]
    · rw [hsum]; norm_num
    · linarith [hsum]
    · rintro (h | h | h | h | h | h) <;> linarith [hsum]
  · intro d' hd'
    unfold ETTrafficMatrix.init
    rw [if_pos]
    rcases hd' with h | h
    · exact Or.inl h
    · exact Or.inr (Or.inl h)
  · intro e' he'
    unfold ETTrafficMatrix.init
    rw [if_pos]
    rcases he' with h | h
    · exact Or.inr (Or.inr (Or.inl h))
    · exact Or.inr (Or.inr (Or.inr (Or.inl h)))
  · intro a' ha'
    unfold ETTrafficMatrix.init
    rw [if_pos]
    exact Or.inr (Or.inr (Or.inr (Or.inr (Or.inl ha'))))

/-- Witness for `etTrafficMatrix_construction_cases` at
`demand = 1/2`, `edge = 1/2`, `agg = 1/4`. -/
theorem etTrafficMatrix_construction_cases_witness :
    ((1 / 4 : ℚ) + 1 / 2 ≤ 1 →
      (ETTrafficMatrix.init false 1 false 4 0 (1 / 2) (1 / 4) 0 0).isSome ∧
      (ETTrafficMatrix.init false 1 false 4 1 (1 / 2) (1 / 4) 0 0).isSome) ∧
    (ETTrafficMatrix.init false 1 false 4 (1 / 2) 0 (1 / 4) 0 0).isSome ∧
    ((1 / 4 : ℚ) ≤ 1 / 100 →
      (ETTrafficMatrix.init false 1 false 4 (1 / 2) 1 (1 / 4) 0 0).isSome) ∧
    (ETTrafficMatrix.init false 1 false 4 (1 / 2) (1 / 2) 0 0 0).isSome ∧
    ((1 / 2 : ℚ) ≤ 1 / 100 →
      (ETTrafficMatrix.init false 1 false 4 (1 / 2) (1 / 2) 1 0 0).isSome) ∧
    ((1 / 4 : ℚ) + 1 / 2 = 1 →
      ETTrafficMatrix.init false 1 false 4 (1 / 2) (1 / 2) (1 / 4) 0 0 =
        some ⟨false, 1, false, 4, 1 / 2, 1 / 2, 1 / 4, 0, 0⟩) ∧
    ((1 / 4 : ℚ) + 1 / 2 = 201 / 200 →
      ETTrafficMatrix.init false 1 false 4 (1 / 2) (1 / 2) (1 / 4) 0 0 =
        some ⟨false, 1, false, 4, 1 / 2, 1 / 2, 1 - 1 / 2, 0, 0⟩) ∧
    ((1 / 4 : ℚ) + 1 / 2 = 51 / 50 →
      ETTrafficMatrix.init false 1 false 4 (1 / 2) (1 / 2) (1 / 4) 0 0 =
        none) ∧
    (∀ d' : ℚ, d' < 0 ∨ 1 < d' →
      ETTrafficMatrix.init false 1 false 4 d' (1 / 2) (1 / 4) 0 0 = none) ∧
    (∀ e' : ℚ, e' < 0 ∨ 1 < e' →
      ETTrafficMatrix.init false 1 false 4 (1 / 2) e' (1 / 4) 0 0 = none) ∧
    (∀ a' : ℚ, a' < 0 →
      ETTrafficMatrix.init false 1 false 4 (1 / 2) (1 / 2) a' 0 0 = none) :=
  etTrafficMatrix_construction_cases false 1 false 4 (1 / 2) (1 / 2) (1 / 4)
    0 0 (by norm_num) (by norm_num) (by norm_num)

/-- C10: every `ETTrafficMatrix` whose construction succeeds satisfies,
as a post-construction invariant, `demand ∈ [0,1]`, `edge ∈ [0,1]`,
`agg ∈ [0,1]` and `agg + edge ≤ 1`; and when the clamp fired
(`agg + edge > 1` on input) the stored `agg` is exactly `1 - edge`.  A
constructed traffic matrix therefore never over-allocates aggregate plus
edge capacity. -/
theorem etTrafficMatrix_invariant (u : Bool) (s : ℤ) (ms : Bool) (k : ℤ)
    (d e a : ℚ) (p : ℤ) (x : ℕ) (m : ETTrafficMatrix)
    (h : ETTrafficMatrix.init u s ms k d e a p x = some m) :
    0 ≤ m.demand ∧ m.demand ≤ 1 ∧ 0 ≤ m.edge ∧ m.edge ≤ 1 ∧
    0 ≤ m.agg ∧ m.agg ≤ 1 ∧ m.agg + m.edge ≤ 1 ∧
    (1 < a + e → m.agg = 1 - m.edge) := by
  unfold ETTrafficMatrix.init at h
  split_ifs at h with h1 h2 h3
  · push_neg at h1 h2
    obtain ⟨hd0, hd1, he0, he1, ha0, -⟩ := h1
    obtain rfl : (⟨u, s, ms, k, d, e, 1 - e, p, x⟩ : ETTrafficMatrix) = m :=
      Option.some.inj h
    refine ⟨hd0, hd1, he0, he1, by simp; linarith, by simp; linarith,
      by simp, fun _ => rfl⟩
  · push_neg at h1 h2
    obtain ⟨hd0, hd1, he0, he1, ha0, -⟩ := h1
    obtain rfl : (⟨u, s, ms, k, d, e, a, p, x⟩ : ETTrafficMatrix) = m :=
      Option.some.inj h
    exact ⟨hd0, hd1, he0, he1, ha0, by simp; linarith, by simp; linarith,
      fun hgt => absurd hgt (by simp; linarith)⟩

/-- Witness for `etTrafficMatrix_invariant` at the successful
construction with `demand = 1/2`, `edge = 1/2`, `agg = 1/4`. -/
theorem etTrafficMatrix_invariant_witness :
    0 ≤ (⟨false, 1, false, 4, 1 / 2, 1 / 2, 1 / 4, 0, 0⟩ :
        ETTrafficMatrix).demand ∧
    (⟨false, 1, false, 4, 1 / 2, 1 / 2, 1 / 4, 0, 0⟩ :
        ETTrafficMatrix).demand ≤ 1 ∧
    0 ≤ (⟨false, 1, false, 4, 1 / 2, 1 / 2, 1 / 4, 0, 0⟩ :
        ETTrafficMatrix).edge ∧
    (⟨false, 1, false, 4, 1 / 2, 1 / 2, 1 / 4, 0, 0⟩ :
        ETTrafficMatrix).edge ≤ 1 ∧
    0 ≤ (⟨false, 1, false, 4, 1 / 2, 1 / 2, 1 / 4, 0, 0⟩ :
        ETTrafficMatrix).agg ∧
    (⟨false, 1, false, 4, 1 / 2, 1 / 2, 1 / 4, 0, 0⟩ :
        ETTrafficMatrix).agg ≤ 1 ∧
    (⟨false, 1, false, 4, 1 / 2, 1 / 2, 1 / 4, 0, 0⟩ :
          ETTrafficMatrix).agg +
        (⟨false, 1, false, 4, 1 / 2, 1 / 2, 1 / 4, 0, 0⟩ :
          ETTrafficMatrix).edge ≤ 1 ∧
    (1 < (1 / 4 : ℚ) + 1 / 2 →
      (⟨false, 1, false, 4, 1 / 2, 1 / 2, 1 / 4, 0, 0⟩ :
          ETTrafficMatrix).agg =
        1 - (⟨false, 1, false, 4, 1 / 2, 1 / 2, 1 / 4, 0, 0⟩ :
          ETTrafficMatrix).edge) :=
  etTrafficMatrix_invariant false 1 false 4 (1 / 2) (1 / 2) (1 / 4) 0 0
    ⟨false, 1, false, 4, 1 / 2, 1 / 2, 1 / 4, 0, 0⟩
    (by norm_num [ETTrafficMatrix.init])
